import Mathlib

/-!
# pyapiary — verification of the broker / connector layer

Shallow embedding of `src/pyapiary/api_connectors/broker.py` and
`src/pyapiary/api_connectors/domaintools.py`.

Conventions:
* Python `Optional[str]` values become `Option String`; Python truthiness of a
  string option (`None` and `""` are falsy) is `pyTruthy`.
* Python dicts whose construction order matters only through key lookup are
  modelled as association lists (`List (String × String)`), looked up with
  `List.lookup` (dict keys are unique, so first-match lookup is faithful).
* `httpx.HTTPTransport(proxy=url)` is opaque apart from the proxy url it was
  built from: `Transport.proxyTransport url`.
* The network is an oracle `transport : Nat → Except HErr Nat` giving the
  outcome of the n-th attempt (1-based); `resp.raise_for_status()` is folded
  into the oracle, so a non-2xx response surfaces as `HErr.statusError`.
-/

namespace PyApiary

/-- Python truthiness of an optional string: `None` and `""` are falsy. -/
def pyTruthy : Option String → Bool
  | none => false
  | some s => s ≠ ""

/-- Python `a or b` on optional strings: `b` if `a` is falsy, else `a`. -/
def pyOr (a b : Option String) : Option String :=
  if pyTruthy a then a else b

/-- Python `s.lstrip('/')`: drop every leading `'/'`. -/
def pyLstripSlash (s : String) : String :=
  ⟨s.data.dropWhile (· = '/')⟩

/-- Python `s.rstrip('/')`: drop every trailing `'/'`. -/
def pyRstripSlash (s : String) : String :=
  ⟨(s.data.reverse.dropWhile (· = '/')).reverse⟩

/-- `broker.py` lines 128 and 263: `self.base_url = base_url.rstrip('/')` and
`url = f"{self.base_url}/{endpoint.lstrip('/')}"`. -/
def joinUrl (baseUrl endpoint : String) : String :=
  pyRstripSlash baseUrl ++ "/" ++ pyLstripSlash endpoint

/-- The URL-joining rule as the spec words it: exactly ONE trailing slash
stripped from `base_url` and exactly ONE leading slash stripped from
`endpoint` (spec §3 RequestSpec / claim C3), for refinement comparison. -/
def stripOneTrailingSlash (s : String) : String :=
  if s.data.getLast? = some '/' then ⟨s.data.dropLast⟩ else s

/-- One leading slash stripped, per the spec wording of claim C3. -/
def stripOneLeadingSlash (s : String) : String :=
  match s.data with
  | '/' :: rest => ⟨rest⟩
  | _ => s

/-- Spec-worded join: strip exactly one slash on each side of the boundary. -/
def joinUrlSpecOneSlash (baseUrl endpoint : String) : String :=
  stripOneTrailingSlash baseUrl ++ "/" ++ stripOneLeadingSlash endpoint

/-- An `httpx.HTTPTransport(proxy=url)`, opaque apart from its proxy url. -/
inductive Transport where
  | proxyTransport (url : String)
deriving DecidableEq, Repr

/-- A mounts dict (`Dict[str, httpx.HTTPTransport]`) as an association list. -/
abbrev Mounts := List (String × Transport)

/-- Python truthiness of an optional mounts dict: `None` and `{}` are falsy. -/
def pyTruthyMounts : Option Mounts → Bool
  | none => false
  | some l => !l.isEmpty

/-- The spec's ProxyDecision: the `(proxy, mounts)` pair returned by
`SharedConnectorBase._collect_proxy_config` (broker.py lines 159–167);
`splitProxy h hs` stands for
`{"http://": HTTPTransport(proxy=h), "https://": HTTPTransport(proxy=hs)}`. -/
inductive ProxyDecision where
  | noProxy
  | singleProxy (url : String)
  | splitProxy (httpUrl httpsUrl : String)
deriving DecidableEq, Repr

/-- First component of the `(proxy, mounts)` tuple `_collect_proxy_config`
returns (the single proxy url, when the decision is a single proxy). -/
def ProxyDecision.proxyComponent : ProxyDecision → Option String
  | .singleProxy u => some u
  | _ => none

/-- The mounts dict of the decision, when it is a split proxy. -/
def ProxyDecision.mountsComponent : ProxyDecision → Option Mounts
  | .splitProxy h hs =>
      some [("http://", .proxyTransport h), ("https://", .proxyTransport hs)]
  | _ => none

/-- ASCII lowercase of one character (Python `str.lower()` restricted to
ASCII; the only keys lowered by the code are the three ASCII proxy names). -/
def asciiLowerChar (c : Char) : Char :=
  if 65 ≤ c.toNat ∧ c.toNat ≤ 90 then Char.ofNat (c.toNat + 32) else c

/-- ASCII `str.lower()` on a whole string. -/
def asciiLower (s : String) : String := ⟨s.data.map asciiLowerChar⟩

/-- broker.py line 152–153: `source_env.get(key) or source_env.get(key.lower())`. -/
def getProxyVar (src : List (String × String)) (key : String) : Option String :=
  pyOr (src.lookup key) (src.lookup (asciiLower key))

/-- A proxy variable counts as set when the literal-or-lowercase lookup yields
a truthy (non-empty) value, matching the Python truthiness tests at
broker.py lines 159 and 165. -/
def proxyVarSet (src : List (String × String)) (key : String) : Bool :=
  pyTruthy (getProxyVar src key)

/-- broker.py lines 155–167: the decision taken from an already-chosen source
mapping. `if http_proxy and https_proxy and http_proxy != https_proxy` gives
the split mounts; otherwise `single = all_proxy or https_proxy or http_proxy`
gives a single proxy when truthy, else no proxy. -/
def decideFromSource (src : List (String × String)) : ProxyDecision :=
  let allProxy := getProxyVar src "ALL_PROXY"
  let httpProxy := getProxyVar src "HTTP_PROXY"
  let httpsProxy := getProxyVar src "HTTPS_PROXY"
  if pyTruthy httpProxy && pyTruthy httpsProxy && httpProxy ≠ httpsProxy then
    .splitProxy (httpProxy.getD "") (httpsProxy.getD "")
  else
    let single := pyOr allProxy (pyOr httpsProxy httpProxy)
    if pyTruthy single then .singleProxy (single.getD "") else .noProxy

/-- The spec's precedence rule `ALL_PROXY > HTTPS_PROXY > HTTP_PROXY`, written
from the spec's words for comparison with the code path. -/
def specPrecedenceUrl (allProxy httpsProxy httpProxy : Option String) : Option String :=
  if pyTruthy allProxy then allProxy
  else if pyTruthy httpsProxy then httpsProxy
  else if pyTruthy httpProxy then httpProxy
  else none

/-- broker.py lines 143–167, `SharedConnectorBase._collect_proxy_config`:
choose the source (non-empty `env_config`, else `os.environ` when
`trust_env`, else nothing), then decide. -/
def collectProxyConfig (envConfig : List (String × String)) (trustEnv : Bool)
    (osEnv : List (String × String)) : ProxyDecision :=
  if !envConfig.isEmpty then decideFromSource envConfig
  else if trustEnv then decideFromSource osEnv
  else .noProxy

/-- The proxy-relevant part of the `client_args` handed to `httpx.Client` by
`Broker.__init__` (broker.py lines 218–239). -/
structure SyncClientArgs where
  trustEnv : Bool
  proxy : Option String
  mounts : Option Mounts
deriving DecidableEq, Repr

/-- broker.py lines 224–237, `Broker.__init__`: explicit truthy `mounts` wins,
else explicit truthy `proxy`, else the environment-derived decision. -/
def brokerInitClientArgs (trustEnv : Bool) (proxy : Option String)
    (mounts : Option Mounts) (envConfig osEnv : List (String × String)) :
    SyncClientArgs :=
  if pyTruthyMounts mounts then
    { trustEnv := trustEnv, proxy := none, mounts := mounts }
  else if pyTruthy proxy then
    { trustEnv := trustEnv, proxy := proxy, mounts := none }
  else
    match collectProxyConfig envConfig trustEnv osEnv with
    | .splitProxy h hs =>
        { trustEnv := trustEnv, proxy := none,
          mounts := some [("http://", .proxyTransport h),
                          ("https://", .proxyTransport hs)] }
    | .singleProxy u =>
        { trustEnv := trustEnv, proxy := some u, mounts := none }
    | .noProxy =>
        { trustEnv := trustEnv, proxy := none, mounts := none }

/-- The proxy-relevant arguments of the `httpx.AsyncClient` built by
`AsyncBroker.__init__` (broker.py lines 343–348). -/
structure AsyncClientArgs where
  trustEnv : Bool
  proxy : Option String
deriving DecidableEq, Repr

/-- The `ValueError` message raised by `AsyncBroker.__init__` for mounts
(broker.py lines 337–339), abbreviated to its identifying head. -/
def asyncMountsError : String := "mounts parameter is not supported in AsyncBroker"

/-- broker.py lines 336–348, `AsyncBroker.__init__`: truthy `mounts` raises;
otherwise `resolved_proxy = self.proxy or self._collect_proxy_config()[0]`
(only the single-proxy component of the decision is consulted). -/
def asyncBrokerInit (trustEnv : Bool) (proxy : Option String)
    (mounts : Option Mounts) (envConfig osEnv : List (String × String)) :
    Except String AsyncClientArgs :=
  if pyTruthyMounts mounts then .error asyncMountsError
  else
    .ok { trustEnv := trustEnv,
          proxy := pyOr proxy (collectProxyConfig envConfig trustEnv osEnv).proxyComponent }

/-- An async connector subclass constructor (domaintools.py lines 162–168,
ipqs.py `AsyncIPQSConnector.__init__`): `super().__init__` first (which may
raise for mounts), then resolve `api_key or env_config.get(keyName)` and
raise when it is falsy. Returns the client args and the resolved key. -/
def asyncConnectorInit (keyName : String) (apiKey : Option String)
    (trustEnv : Bool) (proxy : Option String) (mounts : Option Mounts)
    (envConfig osEnv : List (String × String)) :
    Except String (AsyncClientArgs × String) :=
  match asyncBrokerInit trustEnv proxy mounts envConfig osEnv with
  | .error e => .error e
  | .ok client =>
      let key := pyOr apiKey (envConfig.lookup keyName)
      if pyTruthy key then .ok (client, key.getD "")
      else .error "API key is required"

/-- The errors an attempt can raise: `httpx.HTTPStatusError` carrying the
response status (raised by `resp.raise_for_status()`), the transport-level
error classes named in `_default_retry_exc`, and any other exception. The
`tag` field distinguishes otherwise-identical error instances. -/
inductive HErr where
  | statusError (status : Nat) (tag : Nat)
  | connectError (tag : Nat)
  | readTimeout (tag : Nat)
  | writeError (tag : Nat)
  | remoteProtocolError (tag : Nat)
  | poolTimeout (tag : Nat)
  | otherError (tag : Nat)
deriving DecidableEq, Repr

/-- broker.py lines 169–181, `SharedConnectorBase._default_retry_exc`:
retry on status 429 or 5xx, and on the five listed transport errors. -/
def defaultRetryExc : HErr → Bool
  | .statusError s _ => s == 429 || (500 ≤ s && s < 600)
  | .otherError _ => false
  | _ => true

/-- What `call()` can raise into the `try` of `_make_request`: the bare
attempt error (single attempt, non-retryable error, or tenacity exhaustion
with `reraise=True`), or a `tenacity.RetryError` wrapping the last attempt
(exhaustion with `reraise=False`, kept to model the `except RetryError`
branch). -/
inductive PropagatedExc where
  | bare (e : HErr)
  | retryError (last : HErr)
deriving DecidableEq, Repr

/-- The tenacity attempt loop (`retry(reraise=True, retry=…, stop=…)` in the
sync broker, `AsyncRetrying(reraise=True, …)` in the async one; the wait
schedule only delays and never changes results, so it is not modelled).
`n` is the 1-based attempt number, `remaining` the attempts the
`stop_after_attempt` condition still allows (so the first call gets
`remaining = stopAfter`). Per tenacity: a successful attempt returns; an
error failing the retry predicate is raised bare; once the stop condition
holds (`attempt_number ≥ stopAfter`, i.e. `remaining ≤ 1`), the last error
is raised bare when `reraise` is set, else wrapped in `RetryError`. Returns
the outcome together with the number of transport invocations made;
`finalAttempt` is the attempt after which the stop condition halts the
loop. -/
def finalAttempt (reraise : Bool) (pred : HErr → Bool)
    (transport : Nat → Except HErr Nat) (n : Nat) :
    Except PropagatedExc Nat × Nat :=
  match transport n with
  | .ok v => (.ok v, n)
  | .error e =>
    if pred e then
      ((if reraise then .error (.bare e) else .error (.retryError e)), n)
    else (.error (.bare e), n)

def retryingRun (reraise : Bool) (pred : HErr → Bool)
    (transport : Nat → Except HErr Nat) :
    Nat → Nat → Except PropagatedExc Nat × Nat
  | n, 0 => finalAttempt reraise pred transport n
  | n, 1 => finalAttempt reraise pred transport n
  | n, r + 2 =>
    match transport n with
    | .ok v => (.ok v, n)
    | .error e =>
      if pred e then retryingRun reraise pred transport (n + 1) (r + 1)
      else (.error (.bare e), n)

deriving instance DecidableEq for Except

/-- The observable outcome of one `_make_request` call: the returned value or
propagated exception, the number of transport invocations, and the messages
passed to the logging hook by the `except` handlers (each message reduced to
its identifying head). -/
structure CallOutcome where
  result : Except PropagatedExc Nat
  invocations : Nat
  logMessages : List String
deriving DecidableEq, Repr

/-- The `call()` of `_make_request` (broker.py lines 278–290 / 387–402): with
backoff off, `do_request` runs once and any error propagates bare; with
backoff on, the tenacity loop runs with `reraise=True` and the
caller-overridable predicate and stop condition (defaults
`_default_retry_exc` and `stop_after_attempt 3`). -/
def runCall (enableBackoff : Bool) (pred : HErr → Bool) (stopAfter : Nat)
    (transport : Nat → Except HErr Nat) : Except PropagatedExc Nat × Nat :=
  if enableBackoff then retryingRun true pred transport 1 stopAfter
  else
    match transport 1 with
    | .ok r => (.ok r, 1)
    | .error e => (.error (.bare e), 1)

/-- The messages the two `except` handlers of `_make_request` pass to
`self._log` before re-raising (broker.py lines 291–297 / 403–409): a
`tenacity.RetryError` logs `Retry failed`, an `httpx.HTTPStatusError` logs
`HTTP error`; any other exception is caught by neither handler, and
`self._log` is a no-op when logging is disabled. -/
def logFor (enableLogging : Bool) : Except PropagatedExc Nat → List String
  | .error (.retryError _) => if enableLogging then ["Retry failed"] else []
  | .error (.bare (.statusError _ _)) => if enableLogging then ["HTTP error"] else []
  | _ => []

/-- broker.py lines 252–297 (`Broker._make_request`) and 361–409
(`AsyncBroker._make_request`), after URL/header assembly: run `call()` per
`runCall`, log per `logFor`, and propagate the result unchanged. -/
def makeRequest (enableLogging enableBackoff : Bool) (pred : HErr → Bool)
    (stopAfter : Nat) (transport : Nat → Except HErr Nat) : CallOutcome :=
  let run := runCall enableBackoff pred stopAfter transport
  { result := run.1, invocations := run.2,
    logMessages := logFor enableLogging run.1 }

/-- domaintools.py lines 5–66: the fixed Iris Investigate allow-list. -/
def IRIS_INVESTIGATE_ALLOWED_PARAMS : List String := [
  "active", "adsense", "baidu_analytics", "contact_name", "contact_phone",
  "contact_street", "create_date", "domain", "email", "email_dns_soa",
  "email_domain", "expiration_date", "facebook", "first_seen_since",
  "first_seen_within", "google_analytics", "google_analytics_4",
  "google_tag_manager", "historical_email", "historical_free_text",
  "historical_registrant", "hotjar", "iana_id", "ip", "ip_country_code",
  "mailserver_domain", "mailserver_host", "mailserver_ip", "matomo",
  "nameserver_domain", "nameserver_host", "nameserver_ip",
  "not_tagged_with_all", "not_tagged_with_any", "rank", "redirect_domain",
  "registrant", "registrant_org", "registrar", "risk_score", "search_hash",
  "server_type", "ssl_alt_names", "ssl_common_name", "ssl_duration",
  "ssl_email", "ssl_hash", "ssl_issuer_common_name", "ssl_not_after",
  "ssl_not_before", "ssl_org", "ssl_subject", "statcounter_project",
  "statcounter_security", "tagged_with_all", "tagged_with_any", "tld",
  "website_title", "whois", "yandex_metrica"]

/-- The two `ValueError`s of `_validate_iris_investigate_params`
(domaintools.py lines 68–73): no parameter at all, or the sorted list of
names outside the allow-list. -/
inductive ValidationError where
  | emptyParams
  | invalidParams (names : List String)
deriving DecidableEq, Repr

/-- Lexicographic comparison of character lists by code point, the order
Python uses to compare strings. -/
def charListLe : List Char → List Char → Bool
  | [], _ => true
  | _ :: _, [] => false
  | a :: as, b :: bs =>
    if a.toNat < b.toNat then true
    else if b.toNat < a.toNat then false
    else charListLe as bs

/-- Python `<=` on strings: code-point lexicographic. -/
def stringLe (a b : String) : Bool := charListLe a.data b.data

/-- `stringLe` as a relation, for Mathlib sorting lemmas. -/
def stringLeR (a b : String) : Prop := stringLe a b = true

instance : DecidableRel stringLeR := fun a b => instDecidableEqBool (stringLe a b) true

/-- Python `sorted` on strings: ascending by code points. Modelled with
insertion sort under `stringLeR`; keyword-argument names are pairwise
distinct, so any correct sort yields Python's output. -/
def sortStrings (l : List String) : List String :=
  l.insertionSort stringLeR

/-- domaintools.py lines 68–73, `_validate_iris_investigate_params` applied to
the kwargs key set (`set(params) - IRIS_INVESTIGATE_ALLOWED_PARAMS`, then
`sorted`; kwargs keys are distinct, so filtering the key list is the set
difference). -/
def validateIrisInvestigateParams (names : List String) :
    Except ValidationError Unit :=
  if names.isEmpty then .error .emptyParams
  else
    let invalid :=
      sortStrings (names.filter (fun n => !IRIS_INVESTIGATE_ALLOWED_PARAMS.contains n))
    if invalid.isEmpty then .ok () else .error (.invalidParams invalid)

/-- The request a broker call would issue: method, absolute URL, headers and
query parameters (values kept as opaque strings). -/
structure RequestSpec where
  method : String
  url : String
  headers : List (String × String)
  params : List (String × String)
deriving DecidableEq, Repr

/-- broker.py line 269/378: `headers=headers or self.headers` — the per-call
headers dict replaces the defaults only when truthy (non-empty). -/
def effectiveHeaders (perCall : Option (List (String × String)))
    (defaults : List (String × String)) : List (String × String) :=
  match perCall with
  | none => defaults
  | some h => if h.isEmpty then defaults else h

/-- The request assembled by `_make_request` (broker.py lines 263–274 and
372–383) before it is handed to the underlying client: URL from `joinUrl`,
headers from `effectiveHeaders`, params forwarded as given. -/
def buildRequest (baseUrl : String) (defaults : List (String × String))
    (method endpoint : String) (params : List (String × String))
    (perCallHeaders : Option (List (String × String))) : RequestSpec :=
  { method := method,
    url := joinUrl baseUrl endpoint,
    headers := effectiveHeaders perCallHeaders defaults,
    params := params }

/-- domaintools.py lines 87–105 / 170–188, `iris_investigate`: validate the
kwargs names, then `self.get("/v1/iris-investigate", params=kwargs)` with the
connector base url `https://api.domaintools.com`. -/
def irisInvestigate (defaults : List (String × String))
    (kwargs : List (String × String)) : Except ValidationError RequestSpec :=
  match validateIrisInvestigateParams (kwargs.map Prod.fst) with
  | .error e => .error e
  | .ok _ =>
      .ok (buildRequest "https://api.domaintools.com" defaults "GET"
            "/v1/iris-investigate" kwargs none)

/-! ## Helper lemmas -/

theorem dropWhileSlash_head_ne (l : List Char) :
    (l.dropWhile (· = '/')).head? ≠ some '/' := by
  induction l with
  | nil => simp
  | cons c cs ih =>
    by_cases h : c = '/'
    · simpa [List.dropWhile_cons, h] using ih
    · simp [List.dropWhile_cons, h]

theorem pyLstripSlash_head_ne (s : String) :
    (pyLstripSlash s).data.head? ≠ some '/' := by
  simpa [pyLstripSlash] using dropWhileSlash_head_ne s.data

theorem pyRstripSlash_getLast_ne (s : String) :
    (pyRstripSlash s).data.getLast? ≠ some '/' := by
  simpa [pyRstripSlash, List.getLast?_reverse] using
    dropWhileSlash_head_ne s.data.reverse

/-! ## C3 — URL joining -/

/-- C3 counterexample: for `base_url = "b//"` and `endpoint = "//e"` the code
issues `"b/e"` (all boundary slashes stripped), while the claim's rule —
exactly one trailing and one leading slash stripped — would give `"b///e"`;
the two disagree, so the issued URL does not equal the claim's description. -/
theorem urlJoin_one_slash_claim_fails :
    (buildRequest "b//" [] "GET" "//e" [] none).url = "b/e" ∧
    joinUrlSpecOneSlash "b//" "//e" = "b///e" ∧
    (buildRequest "b//" [] "GET" "//e" [] none).url ≠
      joinUrlSpecOneSlash "b//" "//e" := by
  refine ⟨by decide, by decide, by decide⟩

/-- C3 amended: the URL issued by `_make_request` (hence by `get`/`post`) is
`base_url` with ALL trailing slashes stripped, then one `"/"`, then
`endpoint` with ALL leading slashes stripped; the two stripped parts no
longer touch a slash at the boundary, so exactly one slash separates them
regardless of how many slashes either input carried. -/
theorem urlJoin_strips_all_boundary_slashes (baseUrl endpoint method : String)
    (defaults params : List (String × String))
    (perCall : Option (List (String × String))) :
    (buildRequest baseUrl defaults method endpoint params perCall).url =
      pyRstripSlash baseUrl ++ "/" ++ pyLstripSlash endpoint ∧
    (pyRstripSlash baseUrl).data.getLast? ≠ some '/' ∧
    (pyLstripSlash endpoint).data.head? ≠ some '/' := by
  exact ⟨rfl, pyRstripSlash_getLast_ne baseUrl, pyLstripSlash_head_ne endpoint⟩

/-! ## C9 — empty per-call headers -/

/-- C9: a per-call headers mapping that is empty (`{}` is falsy, so
`headers or self.headers` picks the defaults) leaves the request identical
to one made with no per-call headers at all, and carries the client's
default headers; only a non-empty per-call mapping replaces them. -/
theorem empty_percall_headers_keep_defaults (baseUrl method endpoint : String)
    (defaults params : List (String × String)) :
    buildRequest baseUrl defaults method endpoint params (some []) =
      buildRequest baseUrl defaults method endpoint params none ∧
    (buildRequest baseUrl defaults method endpoint params (some [])).headers =
      defaults ∧
    (∀ h : List (String × String), h ≠ [] →
      (buildRequest baseUrl defaults method endpoint params (some h)).headers = h) := by
  refine ⟨rfl, rfl, fun h hne => ?_⟩
  simp [buildRequest, effectiveHeaders, hne]

/-- Witness for C9 at concrete inputs: empty per-call headers behave exactly
like omitted headers, and a non-empty per-call mapping replaces the default. -/
theorem empty_percall_headers_keep_defaults_witness :
    (buildRequest "https://b" [("A", "1")] "GET" "/e" [] (some [])).headers =
      [("A", "1")] ∧
    (buildRequest "https://b" [("A", "1")] "GET" "/e" [] (some [("B", "2")])).headers =
      [("B", "2")] := by
  refine ⟨(empty_percall_headers_keep_defaults "https://b" "GET" "/e" [("A", "1")] []).2.1,
    (empty_percall_headers_keep_defaults "https://b" "GET" "/e" [("A", "1")] []).2.2
      [("B", "2")] (by decide)⟩

/-! ## C2 — proxy decision from a source mapping -/

/-- C2: over any proxy-variable source (keys looked up literally and in
lowercase): both HTTP and HTTPS proxies set with differing values gives the
split decision with the two transports; otherwise, any of the three
variables set gives a single proxy chosen by the precedence
`ALL_PROXY > HTTPS_PROXY > HTTP_PROXY`; none set gives no proxy. -/
theorem proxy_decision_cases (src : List (String × String)) :
    (proxyVarSet src "HTTP_PROXY" = true → proxyVarSet src "HTTPS_PROXY" = true →
      getProxyVar src "HTTP_PROXY" ≠ getProxyVar src "HTTPS_PROXY" →
      decideFromSource src =
        .splitProxy ((getProxyVar src "HTTP_PROXY").getD "")
          ((getProxyVar src "HTTPS_PROXY").getD "")) ∧
    ((proxyVarSet src "ALL_PROXY" = true ∨ proxyVarSet src "HTTPS_PROXY" = true ∨
        proxyVarSet src "HTTP_PROXY" = true) →
      ¬(proxyVarSet src "HTTP_PROXY" = true ∧ proxyVarSet src "HTTPS_PROXY" = true ∧
          getProxyVar src "HTTP_PROXY" ≠ getProxyVar src "HTTPS_PROXY") →
      decideFromSource src =
        .singleProxy ((specPrecedenceUrl (getProxyVar src "ALL_PROXY")
          (getProxyVar src "HTTPS_PROXY") (getProxyVar src "HTTP_PROXY")).getD "")) ∧
    (proxyVarSet src "ALL_PROXY" = false → proxyVarSet src "HTTPS_PROXY" = false →
      proxyVarSet src "HTTP_PROXY" = false →
      decideFromSource src = .noProxy) := by
  unfold proxyVarSet at *
  refine ⟨fun h1 h2 h3 => ?_, fun h1 h2 => ?_, fun h1 h2 h3 => ?_⟩
  · simp only [decideFromSource]
    rw [if_pos]
    simp [h1, h2, h3]
  · simp only [decideFromSource]
    rw [if_neg]
    · by_cases ha : pyTruthy (getProxyVar src "ALL_PROXY") = true
      · simp [pyOr, specPrecedenceUrl, ha]
      · by_cases hhs : pyTruthy (getProxyVar src "HTTPS_PROXY") = true
        · simp [pyOr, specPrecedenceUrl, ha, hhs]
        · rcases h1 with h | h | h
          · exact absurd h ha
          · exact absurd h hhs
          · simp [pyOr, specPrecedenceUrl, ha, hhs, h]
    · intro hc
      simp only [Bool.and_eq_true, decide_eq_true_eq] at hc
      exact h2 ⟨hc.1.1, hc.1.2, hc.2⟩
  · simp only [decideFromSource]
    rw [if_neg, if_neg]
    · simp [pyOr, h1, h2, h3]
    · simp [h1, h2]

/-- Witness for C2 at a concrete source: differing HTTP/HTTPS values give
the split decision with the two urls. -/
theorem proxy_decision_cases_witness :
    decideFromSource [("HTTP_PROXY", "http://a"), ("HTTPS_PROXY", "http://b")] =
      .splitProxy "http://a" "http://b" := by
  have h := (proxy_decision_cases
    [("HTTP_PROXY", "http://a"), ("HTTPS_PROXY", "http://b")]).1
    (by decide) (by decide) (by decide)
  exact h.trans (by decide)

/-! ## C5 — proxy-variable source selection -/

/-- C5: a non-empty merged `env_config` is the sole proxy-variable source (the
decision is independent of the process environment even with `trust_env`);
an empty one defers to the process environment exactly when `trust_env` is
true; with `trust_env` false and no config, the decision is no proxy. -/
theorem proxy_source_selection (envConfig osEnv osEnv2 : List (String × String))
    (trustEnv : Bool) :
    (envConfig ≠ [] →
      collectProxyConfig envConfig trustEnv osEnv = decideFromSource envConfig ∧
      collectProxyConfig envConfig trustEnv osEnv =
        collectProxyConfig envConfig trustEnv osEnv2) ∧
    (envConfig = [] → trustEnv = true →
      collectProxyConfig envConfig trustEnv osEnv = decideFromSource osEnv) ∧
    (envConfig = [] → trustEnv = false →
      collectProxyConfig envConfig trustEnv osEnv = .noProxy) := by
  refine ⟨fun h => ?_, fun h ht => ?_, fun h ht => ?_⟩
  · have hne : envConfig.isEmpty = false := by
      cases envConfig with
      | nil => exact absurd rfl h
      | cons a l => rfl
    constructor <;> simp [collectProxyConfig, hne]
  · subst h ht; simp [collectProxyConfig]
  · subst h ht; simp [collectProxyConfig]

/-- Witness for C5 at concrete inputs: a non-empty config overrides a process
environment that would have decided differently. -/
theorem proxy_source_selection_witness :
    collectProxyConfig [("ALL_PROXY", "http://cfg")] true [("ALL_PROXY", "http://os")] =
      .singleProxy "http://cfg" ∧
    collectProxyConfig [] false [("ALL_PROXY", "http://os")] = .noProxy := by
  constructor
  · have h := (proxy_source_selection [("ALL_PROXY", "http://cfg")]
      [("ALL_PROXY", "http://os")] [] true).1 (by decide)
    exact h.1.trans (by decide)
  · exact (proxy_source_selection [] [("ALL_PROXY", "http://os")] [] false).2.2 rfl rfl

/-! ## C6 — explicit proxy/mounts override the environment -/

/-- C6: a truthy explicit `mounts` argument is what the synchronous client
gets, a truthy explicit `proxy` (without mounts) likewise — in either case
the result is the same for every environment, so environment-derived values
are never consulted; the same holds for an explicit proxy on the async
client; and only when neither is supplied does the environment decision
reach the client. -/
theorem explicit_proxy_mounts_override (trustEnv : Bool) (proxy : Option String)
    (mounts : Option Mounts) (envConfig osEnv envConfig2 osEnv2 : List (String × String)) :
    (pyTruthyMounts mounts = true →
      brokerInitClientArgs trustEnv proxy mounts envConfig osEnv =
        { trustEnv := trustEnv, proxy := none, mounts := mounts }) ∧
    (pyTruthyMounts mounts = false → pyTruthy proxy = true →
      brokerInitClientArgs trustEnv proxy mounts envConfig osEnv =
        { trustEnv := trustEnv, proxy := proxy, mounts := none }) ∧
    ((pyTruthyMounts mounts = true ∨ pyTruthy proxy = true) →
      brokerInitClientArgs trustEnv proxy mounts envConfig osEnv =
        brokerInitClientArgs trustEnv proxy mounts envConfig2 osEnv2) ∧
    (pyTruthy proxy = true →
      asyncBrokerInit trustEnv proxy none envConfig osEnv =
        .ok { trustEnv := trustEnv, proxy := proxy }) ∧
    (pyTruthyMounts mounts = false → pyTruthy proxy = false →
      (∀ u, collectProxyConfig envConfig trustEnv osEnv = .singleProxy u →
        brokerInitClientArgs trustEnv proxy mounts envConfig osEnv =
          { trustEnv := trustEnv, proxy := some u, mounts := none }) ∧
      (∀ hu hsu, collectProxyConfig envConfig trustEnv osEnv = .splitProxy hu hsu →
        brokerInitClientArgs trustEnv proxy mounts envConfig osEnv =
          { trustEnv := trustEnv, proxy := none,
            mounts := some [("http://", .proxyTransport hu),
                            ("https://", .proxyTransport hsu)] })) := by
  refine ⟨fun hm => ?_, fun hm hp => ?_, fun h => ?_, fun hp => ?_, fun hm hp => ⟨?_, ?_⟩⟩
  · simp [brokerInitClientArgs, hm]
  · simp [brokerInitClientArgs, hm, hp]
  · rcases h with hm | hp
    · simp [brokerInitClientArgs, hm]
    · by_cases hm : pyTruthyMounts mounts = true
      · simp [brokerInitClientArgs, hm]
      · simp only [Bool.not_eq_true] at hm
        simp [brokerInitClientArgs, hm, hp]
  · simp [asyncBrokerInit, pyTruthyMounts, pyOr, hp]
  · intro u hc
    simp [brokerInitClientArgs, hm, hp, hc]
  · intro hu hsu hc
    simp [brokerInitClientArgs, hm, hp, hc]

/-- Witness for C6 at concrete inputs: an explicit proxy wins over an
environment that would decide for a different single proxy. -/
theorem explicit_proxy_mounts_override_witness :
    brokerInitClientArgs true (some "http://explicit") none
      [("ALL_PROXY", "http://env")] [] =
      { trustEnv := true, proxy := some "http://explicit", mounts := none } := by
  exact (explicit_proxy_mounts_override true (some "http://explicit") none
    [("ALL_PROXY", "http://env")] [] [] []).2.1 (by decide) (by decide)

/-! ## C7 — async construction with mounts always raises -/

/-- C7: constructing the async executor — or an async connector subclass,
whose constructor runs the broker constructor first — with a truthy
`mounts` argument raises the configuration `ValueError`, for every choice
of the remaining arguments and environment. -/
theorem async_mounts_always_raises (trustEnv : Bool) (proxy : Option String)
    (mounts : Option Mounts) (envConfig osEnv : List (String × String))
    (keyName : String) (apiKey : Option String) :
    pyTruthyMounts mounts = true →
    asyncBrokerInit trustEnv proxy mounts envConfig osEnv = .error asyncMountsError ∧
    asyncConnectorInit keyName apiKey trustEnv proxy mounts envConfig osEnv =
      .error asyncMountsError := by
  intro hm
  have hb : asyncBrokerInit trustEnv proxy mounts envConfig osEnv =
      .error asyncMountsError := by
    simp [asyncBrokerInit, hm]
  exact ⟨hb, by simp [asyncConnectorInit, hb]⟩

/-- Witness for C7 at concrete inputs: a one-entry mounts dict makes both the
plain async broker and the connector constructor raise, even though every
other argument is benign. -/
theorem async_mounts_always_raises_witness :
    asyncBrokerInit true (some "http://p") (some [("http://", .proxyTransport "m")])
      [] [] = .error asyncMountsError ∧
    asyncConnectorInit "DOMAINTOOLS_API_KEY" (some "key") true none
      (some [("http://", .proxyTransport "m")]) [] [] = .error asyncMountsError := by
  refine ⟨(async_mounts_always_raises true (some "http://p")
      (some [("http://", .proxyTransport "m")]) [] [] "DOMAINTOOLS_API_KEY"
      (some "key") (by decide)).1,
    (async_mounts_always_raises true none
      (some [("http://", .proxyTransport "m")]) [] [] "DOMAINTOOLS_API_KEY"
      (some "key") (by decide)).2⟩

/-! ## C10 — async constructor discards a split-proxy decision -/

/-- C10: when no explicit proxy or mounts is given and the environment
decision is the split (differing HTTP/HTTPS) one, the async constructor
succeeds and configures no proxy at all: it reads only the single-proxy
component of the decision, which is absent for a split. -/
theorem async_split_proxy_discarded (trustEnv : Bool)
    (envConfig osEnv : List (String × String)) (hu hsu : String) :
    collectProxyConfig envConfig trustEnv osEnv = .splitProxy hu hsu →
    asyncBrokerInit trustEnv none none envConfig osEnv =
      .ok { trustEnv := trustEnv, proxy := none } := by
  intro hc
  simp [asyncBrokerInit, pyTruthyMounts, pyOr, pyTruthy, hc,
    ProxyDecision.proxyComponent]

/-- Witness for C10: with differing HTTP/HTTPS proxy variables in the config,
async construction succeeds with no proxy configured. -/
theorem async_split_proxy_discarded_witness :
    asyncBrokerInit true none none
      [("HTTP_PROXY", "http://a"), ("HTTPS_PROXY", "http://b")] [] =
      .ok { trustEnv := true, proxy := none } := by
  exact async_split_proxy_discarded true
    [("HTTP_PROXY", "http://a"), ("HTTPS_PROXY", "http://b")] [] "http://a"
    "http://b" (by decide)

/-! ## C1 — retry with the default policy -/

/-- C1: with backoff enabled, the default attempt limit 3 and an always-true
retry predicate — two failures then a success return the successful
response after exactly 3 transport invocations; three failures raise after
exactly 3 invocations, and what is raised is the third attempt's own error,
bare (`PropagatedExc.bare`, never the `retryError` wrapper), the same shape
the single-attempt no-backoff path raises. -/
theorem retry_default_policy (enableLogging : Bool)
    (transport : Nat → Except HErr Nat) :
    (∀ e1 e2 r, transport 1 = .error e1 → transport 2 = .error e2 →
      transport 3 = .ok r →
      (makeRequest enableLogging true (fun _ => true) 3 transport).result = .ok r ∧
      (makeRequest enableLogging true (fun _ => true) 3 transport).invocations = 3) ∧
    (∀ e1 e2 e3, transport 1 = .error e1 → transport 2 = .error e2 →
      transport 3 = .error e3 →
      (makeRequest enableLogging true (fun _ => true) 3 transport).result =
        .error (.bare e3) ∧
      (makeRequest enableLogging true (fun _ => true) 3 transport).invocations = 3) ∧
    (∀ e, transport 1 = .error e →
      (makeRequest enableLogging false (fun _ => true) 3 transport).result =
        .error (.bare e)) := by
  refine ⟨fun e1 e2 r h1 h2 h3 => ?_, fun e1 e2 e3 h1 h2 h3 => ?_, fun e h1 => ?_⟩
  · constructor <;>
      simp [makeRequest, runCall, retryingRun, finalAttempt, h1, h2, h3]
  · constructor <;>
      simp [makeRequest, runCall, retryingRun, finalAttempt, h1, h2, h3]
  · simp [makeRequest, runCall, h1]

/-- Witness for C1: a transport failing on attempts 1 and 2 and succeeding on
attempt 3 yields the success after 3 invocations; one failing on all three
yields the third attempt's bare error after 3 invocations. -/
theorem retry_default_policy_witness :
    ((makeRequest true true (fun _ => true) 3
        (fun n => if n < 3 then .error (.connectError n) else .ok 7)).result =
      .ok 7 ∧
     (makeRequest true true (fun _ => true) 3
        (fun n => if n < 3 then .error (.connectError n) else .ok 7)).invocations =
      3) ∧
    ((makeRequest true true (fun _ => true) 3
        (fun n => .error (.connectError n))).result =
      .error (.bare (.connectError 3)) ∧
     (makeRequest true true (fun _ => true) 3
        (fun n => .error (.connectError n))).invocations = 3) ∧
    (makeRequest true false (fun _ => true) 3
        (fun n => .error (.connectError n))).result =
      .error (.bare (.connectError 1)) := by
  refine ⟨(retry_default_policy true _).1 (.connectError 1) (.connectError 2) 7
      (by decide) (by decide) (by decide),
    (retry_default_policy true _).2.1 (.connectError 1) (.connectError 2)
      (.connectError 3) rfl rfl rfl,
    (retry_default_policy true _).2.2 (.connectError 1) rfl⟩

/-! ## C4 — which propagated errors get logged -/

/-- C4 counterexample: with logging enabled, a transport failure
(`httpx.ConnectError`) propagated by `_make_request` — whether after retry
exhaustion (the bare last error is re-raised, so the `except RetryError`
logging branch never sees it) or from a single no-backoff attempt — reaches
the caller with nothing logged, contradicting the claim that every
propagated error is logged. -/
theorem propagated_transport_error_unlogged :
    (makeRequest true true defaultRetryExc 3
        (fun n => .error (.connectError n))).result =
      .error (.bare (.connectError 3)) ∧
    (makeRequest true true defaultRetryExc 3
        (fun n => .error (.connectError n))).logMessages = [] ∧
    (makeRequest true false defaultRetryExc 3
        (fun n => .error (.connectError n))).result =
      .error (.bare (.connectError 1)) ∧
    (makeRequest true false defaultRetryExc 3
        (fun n => .error (.connectError n))).logMessages = [] := by
  refine ⟨by decide, by decide, by decide, by decide⟩

/-- The log of a `_make_request` call is a function of the propagated
result's shape. -/
theorem makeRequest_logMessages_eq (enableLogging enableBackoff : Bool)
    (pred : HErr → Bool) (stopAfter : Nat) (transport : Nat → Except HErr Nat) :
    (makeRequest enableLogging enableBackoff pred stopAfter transport).logMessages =
      logFor enableLogging
        (makeRequest enableLogging enableBackoff pred stopAfter transport).result :=
  rfl

/-- C4 amended: with logging enabled, a propagated HTTP status failure is
logged (`HTTP error`) before being re-raised, and a propagated retry
wrapper would be logged (`Retry failed`); but a propagated bare non-status
error — every transport failure, including the bare error re-raised after
retry exhaustion — bypasses both logging handlers and is re-raised with
nothing logged. No error is swallowed: the result always carries it. -/
theorem propagated_error_logging_classification (enableBackoff : Bool)
    (pred : HErr → Bool) (stopAfter : Nat) (transport : Nat → Except HErr Nat) :
    (∀ s tag,
      (makeRequest true enableBackoff pred stopAfter transport).result =
        .error (.bare (.statusError s tag)) →
      (makeRequest true enableBackoff pred stopAfter transport).logMessages =
        ["HTTP error"]) ∧
    (∀ e,
      (makeRequest true enableBackoff pred stopAfter transport).result =
        .error (.retryError e) →
      (makeRequest true enableBackoff pred stopAfter transport).logMessages =
        ["Retry failed"]) ∧
    (∀ e,
      (makeRequest true enableBackoff pred stopAfter transport).result =
        .error (.bare e) →
      (∀ s tag, e ≠ .statusError s tag) →
      (makeRequest true enableBackoff pred stopAfter transport).logMessages = []) := by
  refine ⟨fun s tag h => ?_, fun e h => ?_, fun e h hne => ?_⟩
  · rw [makeRequest_logMessages_eq, h]; rfl
  · rw [makeRequest_logMessages_eq, h]; rfl
  · rw [makeRequest_logMessages_eq, h]
    cases e with
    | statusError s tag => exact absurd rfl (hne s tag)
    | connectError tag => rfl
    | readTimeout tag => rfl
    | writeError tag => rfl
    | remoteProtocolError tag => rfl
    | poolTimeout tag => rfl
    | otherError tag => rfl

/-- Witness for the amended C4: a retryable 500 status failing every attempt
is propagated bare after exhaustion and logged as an HTTP error, while a
connection failure propagates with an empty log. -/
theorem propagated_error_logging_classification_witness :
    (makeRequest true true defaultRetryExc 3
        (fun n => .error (.statusError 500 n))).logMessages = ["HTTP error"] ∧
    (makeRequest true true defaultRetryExc 3
        (fun n => .error (.connectError n))).logMessages = [] := by
  refine ⟨(propagated_error_logging_classification true defaultRetryExc 3
      (fun n => .error (.statusError 500 n))).1 500 3 (by decide),
    (propagated_error_logging_classification true defaultRetryExc 3
      (fun n => .error (.connectError n))).2.2 (.connectError 3) (by decide)
      (fun s tag h => by cases h)⟩

/-! ## C8 — Iris Investigate parameter validation -/

theorem charListLe_total : ∀ a b : List Char,
    charListLe a b = true ∨ charListLe b a = true := by
  intro a
  induction a with
  | nil => intro b; left; simp [charListLe]
  | cons x xs ih =>
    intro b
    cases b with
    | nil => right; simp [charListLe]
    | cons y ys =>
      simp only [charListLe]
      rcases Nat.lt_trichotomy x.toNat y.toNat with h | h | h
      · left; rw [if_pos h]
      · have h1 : ¬ x.toNat < y.toNat := by omega
        have h2 : ¬ y.toNat < x.toNat := by omega
        rcases ih ys with hl | hr
        · left; rw [if_neg h1, if_neg h2]; exact hl
        · right; rw [if_neg h2, if_neg h1]; exact hr
      · right; rw [if_pos h]

theorem charListLe_trans : ∀ a b c : List Char,
    charListLe a b = true → charListLe b c = true → charListLe a c = true := by
  intro a
  induction a with
  | nil => intro b c _ _; simp [charListLe]
  | cons x xs ih =>
    intro b c hab hbc
    cases b with
    | nil => simp [charListLe] at hab
    | cons y ys =>
      cases c with
      | nil => simp [charListLe] at hbc
      | cons z zs =>
        simp only [charListLe] at hab hbc ⊢
        split_ifs at hab hbc ⊢ <;>
          first
            | rfl
            | omega
            | exact ih ys zs hab hbc

instance : IsTotal String stringLeR :=
  ⟨fun a b => charListLe_total a.data b.data⟩

instance : IsTrans String stringLeR :=
  ⟨fun a b c hab hbc => charListLe_trans a.data b.data c.data hab hbc⟩

/-- C8: over every keyword-argument list with pairwise-distinct names (Python
kwargs keys are distinct): an empty mapping is rejected as `emptyParams`
before any request is built; a mapping with names outside the allow-list is
rejected with exactly the offending names — sorted, duplicate-free, and
nothing else — again before any request; a mapping of only allow-listed
names passes and the request is a GET of `/v1/iris-investigate` carrying
the kwargs verbatim as query parameters. -/
theorem iris_investigate_validation (defaults kwargs : List (String × String)) :
    (kwargs = [] → irisInvestigate defaults kwargs = .error .emptyParams) ∧
    (kwargs ≠ [] →
      (kwargs.map Prod.fst).filter
        (fun n => !IRIS_INVESTIGATE_ALLOWED_PARAMS.contains n) ≠ [] →
      irisInvestigate defaults kwargs =
        .error (.invalidParams (sortStrings ((kwargs.map Prod.fst).filter
          (fun n => !IRIS_INVESTIGATE_ALLOWED_PARAMS.contains n)))) ∧
      List.Sorted stringLeR (sortStrings ((kwargs.map Prod.fst).filter
        (fun n => !IRIS_INVESTIGATE_ALLOWED_PARAMS.contains n))) ∧
      (∀ n, n ∈ sortStrings ((kwargs.map Prod.fst).filter
          (fun n => !IRIS_INVESTIGATE_ALLOWED_PARAMS.contains n)) ↔
        n ∈ kwargs.map Prod.fst ∧ n ∉ IRIS_INVESTIGATE_ALLOWED_PARAMS) ∧
      ((kwargs.map Prod.fst).Nodup →
        (sortStrings ((kwargs.map Prod.fst).filter
          (fun n => !IRIS_INVESTIGATE_ALLOWED_PARAMS.contains n))).Nodup)) ∧
    (kwargs ≠ [] →
      (∀ n, n ∈ kwargs.map Prod.fst → n ∈ IRIS_INVESTIGATE_ALLOWED_PARAMS) →
      irisInvestigate defaults kwargs =
        .ok { method := "GET",
              url := "https://api.domaintools.com/v1/iris-investigate",
              headers := defaults, params := kwargs }) := by
  refine ⟨fun h => ?_, fun hne hbad => ?_, fun hne hok => ?_⟩
  · subst h
    rfl
  · have hkn : (kwargs.map Prod.fst).isEmpty = false := by
      cases kwargs with
      | nil => exact absurd rfl hne
      | cons a l => rfl
    refine ⟨?_, List.sorted_insertionSort stringLeR _, fun n => ?_, fun hnd => ?_⟩
    · have hb : (sortStrings ((kwargs.map Prod.fst).filter
          (fun n => !IRIS_INVESTIGATE_ALLOWED_PARAMS.contains n))).isEmpty = false := by
        have hperm := List.perm_insertionSort stringLeR
          ((kwargs.map Prod.fst).filter
            (fun n => !IRIS_INVESTIGATE_ALLOWED_PARAMS.contains n))
        cases hs : sortStrings ((kwargs.map Prod.fst).filter
            (fun n => !IRIS_INVESTIGATE_ALLOWED_PARAMS.contains n)) with
        | nil =>
          rw [sortStrings] at hs
          rw [hs] at hperm
          exact absurd (hperm.symm.eq_nil) hbad
        | cons a l => rfl
      simp only [irisInvestigate, validateIrisInvestigateParams, hkn,
        Bool.false_eq_true, if_false, sortStrings] at *
      rw [if_neg]
      intro hc
      rw [hc] at hb
      cases hb
    · simp [sortStrings, List.mem_filter]
    · exact ((List.perm_insertionSort stringLeR _).nodup_iff).mpr
        (hnd.filter _)
  · have hkn : (kwargs.map Prod.fst).isEmpty = false := by
      cases kwargs with
      | nil => exact absurd rfl hne
      | cons a l => rfl
    have hfil : (kwargs.map Prod.fst).filter
        (fun n => !IRIS_INVESTIGATE_ALLOWED_PARAMS.contains n) = [] := by
      rw [List.filter_eq_nil_iff]
      intro n hn
      simp only [Bool.not_eq_true', Bool.not_true, Bool.not_eq_true]
      simpa using hok n hn
    simp only [irisInvestigate, validateIrisInvestigateParams, hkn,
      Bool.false_eq_true, if_false, sortStrings, hfil]
    rfl

/-- Witness for C8: one disallowed name among two yields a sorted offending
list, while two allow-listed names are forwarded verbatim. -/
theorem iris_investigate_validation_witness :
    irisInvestigate [] [] = .error .emptyParams ∧
    irisInvestigate [] [("zzz", "1"), ("aaa", "2"), ("domain", "x")] =
      .error (.invalidParams ["aaa", "zzz"]) ∧
    irisInvestigate [("X-API-KEY", "k")] [("domain", "x"), ("tld", "com")] =
      .ok { method := "GET",
            url := "https://api.domaintools.com/v1/iris-investigate",
            headers := [("X-API-KEY", "k")],
            params := [("domain", "x"), ("tld", "com")] } := by
  refine ⟨(iris_investigate_validation [] []).1 rfl, ?_, ?_⟩
  · have h := ((iris_investigate_validation []
      [("zzz", "1"), ("aaa", "2"), ("domain", "x")]).2.1 (by decide) (by decide)).1
    exact h.trans (by decide)
  · exact (iris_investigate_validation [("X-API-KEY", "k")]
      [("domain", "x"), ("tld", "com")]).2.2 (by decide) (by decide)

end PyApiary
